import Mathlib

/-!
Shallow embedding of the hb-command-center optimistic state-synchronization
layer (the App component in `src/unnamed/part_004` together with the
`TaskBoard` and `Strategy` components).  React `useState` collections are
modelled as explicit lists threaded through the mutation handlers; the
`Date.now()` clock and `new Date().toISOString()` rendering are passed in as
explicit parameters (`now : Nat`, `nowIso : String`).  JavaScript truthiness
on optional strings (`if (x)`, `x || y`) is modelled by explicit emptiness
tests.
-/

namespace HB

/-- Task priority union type from the source (`'critical'|'high'|'medium'|'low'`). -/
inductive TaskPriority where
  | critical
  | high
  | medium
  | low
deriving DecidableEq, Repr

/-- Task status union type from the source (`'pending'|'in_progress'|'review'|'completed'`). -/
inductive TaskStatus where
  | pending
  | in_progress
  | review
  | completed
deriving DecidableEq, Repr

/-- The string value of a local priority as it appears in JS. -/
def priorityText : TaskPriority → String
  | .critical => "critical"
  | .high => "high"
  | .medium => "medium"
  | .low => "low"

/-- The string value of a local task status as it appears in JS. -/
def statusText : TaskStatus → String
  | .pending => "pending"
  | .in_progress => "in_progress"
  | .review => "review"
  | .completed => "completed"

/-- JS `a || b` on strings: empty string is falsy. -/
def jsOr (a b : String) : String := if a = "" then b else a

/-- JS truthiness of an optional string (`if (x)`): present and non-empty. -/
def jsStr? : Option String → Bool
  | some s => s != ""
  | none => false

/-- JS `x || undefined` on an optional string: an empty string collapses to `undefined`. -/
def jsOrNone : Option String → Option String
  | some "" => none
  | o => o

/-- JS `\w` character class: `[A-Za-z0-9_]`. -/
def isWordChar (c : Char) : Bool :=
  (c ≥ 'a' && c ≤ 'z') || (c ≥ 'A' && c ≤ 'Z') || (c ≥ '0' && c ≤ '9') || c = '_'

/-- JS `\s` character class restricted to the ASCII whitespace actually occurring in titles. -/
def isJsSpace (c : Char) : Bool :=
  c = ' ' || c = '\t' || c = '\n' || c = '\r'

/-! Character-list based string helpers.  The corresponding `String` library
functions are implemented through well-founded recursion over byte positions,
which the kernel cannot unfold; these list-based versions compute the same
strings and keep every definition kernel-evaluable. -/

/-- First `n` characters of `s` (JS `s.substring(0, n)`). -/
def strTake (s : String) (n : Nat) : String := String.mk (s.data.take n)

/-- `s` without its first `n` characters. -/
def strDrop (s : String) (n : Nat) : String := String.mk (s.data.drop n)

/-- Longest prefix of `s` whose characters satisfy `p`. -/
def strTakeWhile (p : Char → Bool) (s : String) : String := String.mk (s.data.takeWhile p)

/-- `s` without its longest prefix of characters satisfying `p`. -/
def strDropWhile (p : Char → Bool) (s : String) : String := String.mk (s.data.dropWhile p)

/-- Whether `pre` is a prefix of `s` (JS `s.startsWith(pre)`). -/
def strStartsWith (s pre : String) : Bool := pre.data.isPrefixOf s.data

/-- ASCII uppercase of one character. -/
def asciiUpper (c : Char) : Char :=
  if 'a' ≤ c && c ≤ 'z' then Char.ofNat (c.toNat - 32) else c

/-- ASCII uppercase of a string (JS `s.toUpperCase()` on the ASCII titles used here). -/
def strToUpper (s : String) : String := String.mk (s.data.map asciiUpper)

/-- JS `s.trim()` restricted to the ASCII whitespace modelled by `isJsSpace`. -/
def strTrim (s : String) : String :=
  String.mk (((s.data.dropWhile isJsSpace).reverse.dropWhile isJsSpace).reverse)

/-- Decimal digit character. -/
def digitChar (n : Nat) : Char := Char.ofNat (48 + n % 10)

/-- Decimal digits of `n`, fuel-indexed so that the kernel can unfold it. -/
def natDigitsAux : Nat → Nat → List Char
  | 0, _ => []
  | fuel + 1, n => if n < 10 then [digitChar n] else natDigitsAux fuel (n / 10) ++ [digitChar n]

/-- Decimal rendering of a natural number, mirroring the JS template-literal
rendering of `Date.now()`; kernel-evaluable. -/
def natToString (n : Nat) : String := String.mk (natDigitsAux (n + 1) n)

/-- Decimal rendering of an integer, mirroring the JS template-literal
rendering of a number. -/
def intToString : Int → String
  | Int.ofNat n => natToString n
  | Int.negSucc n => "-" ++ natToString (n + 1)

/-- The capture group of the regex `/^PR\.(\w+)/`: if the title starts with
`PR.` followed by at least one word character, the maximal run of word
characters after `PR.`; otherwise no match. -/
def prCodeOf (title : String) : Option String :=
  if strStartsWith title "PR." then
    let code := strTakeWhile isWordChar (strDrop title 3)
    if code = "" then none else some code
  else none

/-- `title.replace(/^PR\.\w+\s*\|\s*/, '')` from the source: strip the
`PR.<CODE> |` prefix (with surrounding whitespace) when it matches, else
return the title unchanged. -/
def stripPRTitle (title : String) : String :=
  match prCodeOf title with
  | none => title
  | some code =>
    let rest := strDropWhile isJsSpace (strDrop (strDrop title 3) code.length)
    if strStartsWith rest "|" then strDropWhile isJsSpace (strDrop rest 1)
    else title

/-- Short-code derivation in `mapProject` (src/unnamed/part_004:806):
`p.title?.match(/^PR\.(\w+)/)?.[1] || p.title?.substring(0, 4) || ''`.
Note the fallback is NOT uppercased here. -/
def mapProjectShortCode (title : String) : String :=
  match prCodeOf title with
  | some code => code
  | none => strTake title 4

/-- Short-code derivation in `handleCreateProject` (src/unnamed/part_004:1373):
`data.title.match(/^PR\.(\w+)/)?.[1] || data.title.substring(0, 4).toUpperCase()`.
Here the fallback IS uppercased. -/
def createProjectShortCode (title : String) : String :=
  match prCodeOf title with
  | some code => code
  | none => strToUpper (strTake title 4)

/-- `priorityMap` in `mapTask` (src/unnamed/part_004:778):
`{ 1: 'critical', 2: 'high', 3: 'medium', 4: 'low', 5: 'low' }`. -/
def priorityFromCode : Nat → Option TaskPriority
  | 1 => some .critical
  | 2 => some .high
  | 3 => some .medium
  | 4 => some .low
  | 5 => some .low
  | _ => none

/-- `statusMap` in `mapTask` (src/unnamed/part_004:779):
`{ todo: 'pending', in_progress: 'in_progress', done: 'completed', failed: 'review' }`. -/
def statusFromRemote : String → Option TaskStatus
  | "todo" => some .pending
  | "in_progress" => some .in_progress
  | "done" => some .completed
  | "failed" => some .review
  | _ => none

/-- Reverse status map in `handleUpdateTaskStatus` (src/unnamed/part_004:1129):
`{ pending: 'todo', in_progress: 'in_progress', review: 'in_progress', completed: 'done' }`.
The JS map is keyed by all four local statuses, so the `|| status` fallback
never fires; the function is total. -/
def statusToRemote : TaskStatus → String
  | .pending => "todo"
  | .in_progress => "in_progress"
  | .review => "in_progress"
  | .completed => "done"

/-- Local Task entity (the `Task` interface of the source). -/
structure Task where
  id : String
  title : String
  description : String
  assignedTo : String
  assignedBy : String
  priority : TaskPriority
  status : TaskStatus
  deadline : Option String := none
  createdAt : String
  tags : List String := []
  projectId : Option String := none
  projectName : Option String := none
  projectShortCode : Option String := none
  parentTaskId : Option String := none
deriving DecidableEq, Repr

/-- Local Project entity. -/
structure Project where
  id : String
  title : String
  shortCode : String
  description : Option String := none
  status : String
  department : String
  departmentId : Option String := none
  leadAgentId : Option String := none
  targetDate : Option String := none
  taskCount : Nat
  completedTaskCount : Nat
  notes : Option String := none
  createdAt : String
  parentProjectId : Option String := none
deriving DecidableEq, Repr

/-- Goal initiative (read-only display data). -/
structure Initiative where
  name : String
  status : String
  due : String
deriving DecidableEq, Repr

/-- Local Goal entity. -/
structure Goal where
  id : String
  title : String
  description : Option String := none
  progress : Int
  status : String
  ownerAgentId : Option String := none
  ownerName : String
  ownerEmoji : String
  targetDate : Option String := none
  initiatives : List Initiative := []
deriving DecidableEq, Repr

/-- Local Agent entity (metrics map elided to an association list). -/
structure Agent where
  id : String
  name : String
  role : String
  emoji : String
  status : String
  description : String
  tasksCompleted : Nat
  currentTask : Option String := none
  uptime : String
  metrics : List (String × Nat) := []
deriving DecidableEq, Repr

/-- Local FeatureRequest (idea) entity. -/
structure FeatureRequest where
  id : String
  title : String
  description : Option String := none
  screenshotUrl : Option String := none
  sourceView : Option String := none
  status : String
  priority : String
  createdAt : String
  updatedAt : String
deriving DecidableEq, Repr

/-- Activity log entry. -/
structure ActivityItem where
  id : String
  agent : String
  agentEmoji : String
  action : String
  detail : String
  timestamp : String
  type : String
deriving DecidableEq, Repr

/-- Raw remote agent record (fields used by `mapTask`). -/
structure RawAgent where
  id : String
  handle : String
deriving DecidableEq, Repr

/-- Raw remote project record (fields used by `mapTask`). -/
structure RawProject where
  id : String
  title : String
deriving DecidableEq, Repr

/-- Raw remote task record (fields read by `mapTask`). -/
structure RawTask where
  id : String
  description : Option String := none
  assigned_to : Option String := none
  priority : Option Nat := none
  status : Option String := none
  completed_at : Option String := none
  created_at : String
  project_id : Option String := none
  parent_task_id : Option String := none
deriving DecidableEq, Repr

/-- `mapTask` (src/unnamed/part_004:777-799): translate a raw remote task
record into the local `Task` shape, performing priority/status code
translation and project denormalization. -/
def mapTask (t : RawTask) (agents : List RawAgent) (projects : List RawProject) : Task :=
  let assignedAgent := t.assigned_to.bind (fun aid => agents.find? (fun a => a.id == aid))
  let project := t.project_id.bind (fun pid => projects.find? (fun p => p.id == pid))
  let shortCode := (project.bind (fun p => prCodeOf p.title)).getD ""
  { id := t.id
    title := jsOr (strTake (t.description.getD "") 80) "Untitled"
    description := t.description.getD ""
    assignedTo :=
      match assignedAgent with
      | some a => if a.handle == "@CEA" then "cea" else a.id
      | none => "tiger"
    assignedBy := "cea"
    priority := (t.priority.bind priorityFromCode).getD .medium
    status := (t.status.bind statusFromRemote).getD .pending
    deadline := t.completed_at
    createdAt := t.created_at
    tags := []
    projectId := jsOrNone t.project_id
    projectName := project.map (fun p => stripPRTitle p.title)
    projectShortCode := jsOrNone (some shortCode)
    parentTaskId := jsOrNone t.parent_task_id }

/-- Department record used by `handleCreateProject`. -/
structure Department where
  id : String
  name : String
deriving DecidableEq, Repr

/-- Emoji map shared by `handleCreateGoal` and `mapGoal` in the source. -/
def goalEmojiMap : List (String × String) :=
  [("@CEA", "🧠"), ("@Chief_of_Staff", "📋"), ("@Editor_in_Chief", "✍️"),
   ("@Growth_Lead", "📈"), ("@VP_of_Engineering", "⚙️")]

/-! ### Mutation Engine handlers (src/unnamed/part_004:1128-1495)

Each handler is the synchronous state effect of the corresponding `useCallback`
in the source: the lists it reads and the lists it writes.  The background
remote call is side-effect-free on local state except for the create
reconciliation step, which is modelled separately (`reconcileCreateTask` etc.);
its ordering relative to the local commits is modelled by the `MutStep`
traces further below. -/

/-- Input payload of `handleCreateTask`. -/
structure TaskData where
  title : String
  description : String
  priority : TaskPriority
  assignedTo : String
  projectId : Option String := none
  parentTaskId : Option String := none
deriving DecidableEq, Repr

/-- The optimistic temporary task built by `handleCreateTask`
(src/unnamed/part_004:1187-1201).  `now` is the `Date.now()` value,
`nowIso` the `new Date().toISOString()` rendering. -/
def tempTaskOf (d : TaskData) (projects : List Project) (now : Nat) (nowIso : String) : Task :=
  let project := d.projectId.bind (fun pid => projects.find? (fun p => p.id == pid))
  { id := "temp-" ++ natToString now
    title := d.title
    description := d.description
    assignedTo := d.assignedTo
    assignedBy := "tiger"
    priority := d.priority
    status := .pending
    createdAt := nowIso
    tags := []
    projectId := d.projectId
    projectName := project.map (fun p => stripPRTitle p.title)
    projectShortCode := project.map Project.shortCode
    parentTaskId := d.parentTaskId }

/-- The ActivityItem appended by `handleCreateTask` (src/unnamed/part_004:1214-1218). -/
def createdTaskActivity (title : String) (now : Nat) : ActivityItem :=
  { id := "a" ++ natToString now, agent := "Tiger", agentEmoji := "🐯",
    action := "Created task", detail := title, timestamp := "Just now", type := "task" }

/-- `handleCreateTask` (src/unnamed/part_004:1182-1219): optimistic insert at the
front of the task list, plus one activity entry.  (In the source the activity
append textually follows the awaited remote call; the resulting local state is
the same in every branch — the ordering is the subject of the trace model.) -/
def handleCreateTask (d : TaskData) (projects : List Project) (tasks : List Task)
    (activity : List ActivityItem) (now : Nat) (nowIso : String) :
    List Task × List ActivityItem :=
  (tempTaskOf d projects now nowIso :: tasks, createdTaskActivity d.title now :: activity)

/-- Create reconciliation for tasks (src/unnamed/part_004:1209):
`prev.map(t => t.id === tempTask.id ? { ...tempTask, id: result.data[0].id } : t)`.
Note the replacement spreads the captured `tempTask` snapshot, not the entry
`t` currently in the store. -/
def reconcileCreateTask (tempTask : Task) (remoteId : String) (tasks : List Task) : List Task :=
  tasks.map (fun t => if t.id == tempTask.id then { tempTask with id := remoteId } else t)

/-- The ActivityItem appended by `handleUpdateTaskStatus` (src/unnamed/part_004:1140-1144). -/
def statusChangeActivity (status : TaskStatus) (taskTitle : String) (now : Nat) : ActivityItem :=
  { id := "a" ++ natToString now, agent := "Tiger", agentEmoji := "🐯",
    action := if status == .completed then "Completed"
              else if status == .in_progress then "Started" else "Updated",
    detail := taskTitle, timestamp := "Just now", type := "task" }

/-- Local state effect of `handleUpdateTaskStatus` (src/unnamed/part_004:1128-1146):
set the status by id; append one activity entry when the task is found in the
pre-mutation snapshot.  The remote call's outcome is caught and never touches
local state, so the effect takes no remote-outcome parameter. -/
def handleUpdateTaskStatus (taskId : String) (status : TaskStatus) (tasks : List Task)
    (activity : List ActivityItem) (now : Nat) : List Task × List ActivityItem :=
  (tasks.map (fun t => if t.id == taskId then { t with status := status } else t),
   match tasks.find? (fun t => t.id == taskId) with
   | some task => statusChangeActivity status task.title now :: activity
   | none => activity)

/-- Partial task update payload of `handleUpdateTask`.  `Option (Option _)`
distinguishes an absent key from a key present with `undefined`. -/
structure TaskUpdates where
  title : Option String := none
  description : Option String := none
  priority : Option TaskPriority := none
  assignedTo : Option String := none
  projectId : Option (Option String) := none
  projectName : Option (Option String) := none
  projectShortCode : Option (Option String) := none
  parentTaskId : Option (Option String) := none
deriving DecidableEq, Repr

/-- JS `x !== undefined` check on a key that call sites may pass explicitly
as `undefined`: true only when the key is present with a defined value. -/
def jsDefined? : Option (Option String) → Bool
  | some (some _) => true
  | _ => false

/-- JS spread `{ ...t, ...updates }` for a task. -/
def applyTaskUpdates (t : Task) (u : TaskUpdates) : Task :=
  { t with
    title := u.title.getD t.title
    description := u.description.getD t.description
    priority := u.priority.getD t.priority
    assignedTo := u.assignedTo.getD t.assignedTo
    projectId := match u.projectId with | some v => v | none => t.projectId
    projectName := match u.projectName with | some v => v | none => t.projectName
    projectShortCode := match u.projectShortCode with | some v => v | none => t.projectShortCode
    parentTaskId := match u.parentTaskId with | some v => v | none => t.parentTaskId }

/-- The changed-field list built by `handleUpdateTask` (src/unnamed/part_004:1166-1171),
in source order.  The last check is `updates.projectId !== undefined`, which
is false both when the key is absent and when it is present with `undefined`
(the clear-project update), hence `jsDefined?` rather than `Option.isSome`. -/
def taskUpdateChanges (u : TaskUpdates) : List String :=
  (if jsStr? u.title then ["title"] else []) ++
  (if jsStr? u.description then ["description"] else []) ++
  (match u.priority with | some p => ["priority → " ++ priorityText p] | none => []) ++
  (if jsStr? u.assignedTo then ["assignee"] else []) ++
  (if jsDefined? u.projectId then ["project"] else [])

/-- The ActivityItem appended by `handleUpdateTask` (src/unnamed/part_004:1173-1177). -/
def taskUpdateActivity (taskTitle : String) (u : TaskUpdates) (now : Nat) : ActivityItem :=
  { id := "a" ++ natToString now, agent := "Tiger", agentEmoji := "🐯",
    action := "Updated task",
    detail := taskTitle ++ ": " ++ String.intercalate ", " (taskUpdateChanges u),
    timestamp := "Just now", type := "task" }

/-- `handleUpdateTask` (src/unnamed/part_004:1149-1179): merge the partial update
by id; append one activity entry (with the comma-joined changed-field list)
when the task is found in the pre-mutation snapshot. -/
def handleUpdateTask (taskId : String) (u : TaskUpdates) (tasks : List Task)
    (activity : List ActivityItem) (now : Nat) : List Task × List ActivityItem :=
  (tasks.map (fun t => if t.id == taskId then applyTaskUpdates t u else t),
   match tasks.find? (fun t => t.id == taskId) with
   | some task => taskUpdateActivity task.title u now :: activity
   | none => activity)

/-- The ActivityItem appended by `handleDeleteTask` (src/unnamed/part_004:1233-1237). -/
def deletedTaskActivity (taskTitle : String) (now : Nat) : ActivityItem :=
  { id := "a" ++ natToString now, agent := "Tiger", agentEmoji := "🐯",
    action := "Deleted task", detail := taskTitle, timestamp := "Just now", type := "task" }

/-- `handleDeleteTask` (src/unnamed/part_004:1222-1239). -/
def handleDeleteTask (taskId : String) (tasks : List Task)
    (activity : List ActivityItem) (now : Nat) : List Task × List ActivityItem :=
  (tasks.filter (fun t => t.id != taskId),
   match tasks.find? (fun t => t.id == taskId) with
   | some task => deletedTaskActivity task.title now :: activity
   | none => activity)

/-- Partial project update payload of `handleUpdateProject`. -/
structure ProjectUpdates where
  status : Option String := none
  description : Option String := none
  targetDate : Option String := none
  notes : Option String := none
deriving DecidableEq, Repr

/-- JS spread `{ ...p, ...updates }` for a project. -/
def applyProjectUpdates (p : Project) (u : ProjectUpdates) : Project :=
  { p with
    status := u.status.getD p.status
    description := match u.description with | some v => some v | none => p.description
    targetDate := match u.targetDate with | some v => some v | none => p.targetDate
    notes := match u.notes with | some v => some v | none => p.notes }

/-- The changed-field list built by `handleUpdateProject` (src/unnamed/part_004:1257-1261). -/
def projectUpdateChanges (u : ProjectUpdates) : List String :=
  (match u.status with | some s => if s != "" then ["status → " ++ s] else [] | none => []) ++
  (if u.description.isSome then ["description"] else []) ++
  (if u.notes.isSome then ["notes"] else []) ++
  (if u.targetDate.isSome then ["target date"] else [])

/-- The ActivityItem appended by `handleUpdateProject` (src/unnamed/part_004:1263-1268). -/
def projectUpdateActivity (shortCode : String) (u : ProjectUpdates) (now : Nat) : ActivityItem :=
  { id := "a" ++ natToString now, agent := "Tiger", agentEmoji := "🐯",
    action := "Updated project",
    detail := shortCode ++ ": " ++ String.intercalate ", " (projectUpdateChanges u),
    timestamp := "Just now", type := "task" }

/-- `handleUpdateProject` (src/unnamed/part_004:1241-1270). -/
def handleUpdateProject (projectId : String) (u : ProjectUpdates) (projects : List Project)
    (activity : List ActivityItem) (now : Nat) : List Project × List ActivityItem :=
  (projects.map (fun p => if p.id == projectId then applyProjectUpdates p u else p),
   match projects.find? (fun p => p.id == projectId) with
   | some project => projectUpdateActivity project.shortCode u now :: activity
   | none => activity)

/-- Partial goal update payload of `handleUpdateGoal`. -/
structure GoalUpdates where
  progress : Option Int := none
  status : Option String := none
  title : Option String := none
  description : Option String := none
  targetDate : Option (Option String) := none
deriving DecidableEq, Repr

/-- JS spread `{ ...g, ...updates }` for a goal.  Note: NO clamping of the
progress value happens here, mirroring src/unnamed/part_004:1274. -/
def applyGoalUpdates (g : Goal) (u : GoalUpdates) : Goal :=
  { g with
    progress := u.progress.getD g.progress
    status := u.status.getD g.status
    title := u.title.getD g.title
    description := match u.description with | some v => some v | none => g.description
    targetDate := match u.targetDate with | some v => v | none => g.targetDate }

/-- The changed-field list built by `handleUpdateGoal` (src/unnamed/part_004:1290-1295). -/
def goalUpdateChanges (u : GoalUpdates) : List String :=
  (match u.progress with | some p => ["progress → " ++ intToString p ++ "%"] | none => []) ++
  (match u.status with | some s => if s != "" then ["status → " ++ s] else [] | none => []) ++
  (if jsStr? u.title then ["title"] else []) ++
  (if u.description.isSome then ["description"] else []) ++
  (if jsDefined? u.targetDate then ["target date"] else [])

/-- The ActivityItem appended by `handleUpdateGoal` (src/unnamed/part_004:1297-1301). -/
def goalUpdateActivity (goalTitle : String) (u : GoalUpdates) (now : Nat) : ActivityItem :=
  { id := "a" ++ natToString now, agent := "Tiger", agentEmoji := "🐯",
    action := "Updated goal",
    detail := jsOr (u.title.getD "") goalTitle ++ ": " ++
              String.intercalate ", " (goalUpdateChanges u),
    timestamp := "Just now", type := "task" }

/-- `handleUpdateGoal` (src/unnamed/part_004:1273-1303): merge the partial update
by id (progress stored exactly as supplied, unclamped); append one activity
entry when the goal is found in the pre-mutation snapshot. -/
def handleUpdateGoal (goalId : String) (u : GoalUpdates) (goals : List Goal)
    (activity : List ActivityItem) (now : Nat) : List Goal × List ActivityItem :=
  (goals.map (fun g => if g.id == goalId then applyGoalUpdates g u else g),
   match goals.find? (fun g => g.id == goalId) with
   | some goal => goalUpdateActivity goal.title u now :: activity
   | none => activity)

/-- Input payload of `handleCreateGoal`. -/
structure GoalData where
  title : String
  description : Option String := none
  ownerAgentId : Option String := none
  targetDate : Option String := none
deriving DecidableEq, Repr

/-- The optimistic temporary goal built by `handleCreateGoal`
(src/unnamed/part_004:1313-1323). -/
def tempGoalOf (d : GoalData) (agents : List Agent) (now : Nat) : Goal :=
  let ownerAgent := d.ownerAgentId.bind (fun aid => agents.find? (fun a => a.id == aid))
  { id := "temp-" ++ natToString now
    title := d.title
    progress := 0
    status := "on-track"
    ownerAgentId := d.ownerAgentId
    ownerName := (ownerAgent.map Agent.name).getD "Unassigned"
    ownerEmoji := match ownerAgent with
      | some a => (goalEmojiMap.lookup a.role).getD "🤖"
      | none => "🎯"
    targetDate := d.targetDate
    initiatives := [] }

/-- The ActivityItem appended by `handleCreateGoal` (src/unnamed/part_004:1335-1339). -/
def createdGoalActivity (title : String) (now : Nat) : ActivityItem :=
  { id := "a" ++ natToString now, agent := "Tiger", agentEmoji := "🐯",
    action := "Created goal", detail := title, timestamp := "Just now", type := "task" }

/-- `handleCreateGoal` (src/unnamed/part_004:1306-1340): optimistic append at the
END of the goal list (`[...prev, tempGoal]`), plus one activity entry. -/
def handleCreateGoal (d : GoalData) (agents : List Agent) (goals : List Goal)
    (activity : List ActivityItem) (now : Nat) : List Goal × List ActivityItem :=
  (goals ++ [tempGoalOf d agents now], createdGoalActivity d.title now :: activity)

/-- Create reconciliation for goals (src/unnamed/part_004:1330), again spreading
the captured snapshot. -/
def reconcileCreateGoal (tempGoal : Goal) (remoteId : String) (goals : List Goal) : List Goal :=
  goals.map (fun g => if g.id == tempGoal.id then { tempGoal with id := remoteId } else g)

/-- The ActivityItem appended by `handleDeleteGoal` (src/unnamed/part_004:1354-1358). -/
def deletedGoalActivity (title : String) (now : Nat) : ActivityItem :=
  { id := "a" ++ natToString now, agent := "Tiger", agentEmoji := "🐯",
    action := "Deleted goal", detail := title, timestamp := "Just now", type := "task" }

/-- `handleDeleteGoal` (src/unnamed/part_004:1343-1360). -/
def handleDeleteGoal (goalId : String) (goals : List Goal)
    (activity : List ActivityItem) (now : Nat) : List Goal × List ActivityItem :=
  (goals.filter (fun g => g.id != goalId),
   match goals.find? (fun g => g.id == goalId) with
   | some goal => deletedGoalActivity goal.title now :: activity
   | none => activity)

/-- Input payload of `handleCreateProject`. -/
structure ProjectData where
  title : String
  deptId : Option String := none
  description : Option String := none
  parentProjectId : Option String := none
deriving DecidableEq, Repr

/-- The optimistic temporary project built by `handleCreateProject`
(src/unnamed/part_004:1370-1382); the short code uses the uppercased fallback. -/
def tempProjectOf (d : ProjectData) (departments : List Department)
    (projects : List Project) (now : Nat) (nowIso : String) : Project :=
  let dept := d.deptId.bind (fun did => departments.find? (fun dep => dep.id == did))
  let parentProject := d.parentProjectId.bind (fun pid => projects.find? (fun p => p.id == pid))
  { id := "temp-" ++ natToString now
    title := d.title
    shortCode := createProjectShortCode d.title
    description := d.description
    status := "active"
    department := (dept.map Department.name).getD
      ((parentProject.map Project.department).getD "Unknown")
    departmentId := match d.deptId with
      | some did => some did
      | none => parentProject.bind Project.departmentId
    taskCount := 0
    completedTaskCount := 0
    createdAt := nowIso
    parentProjectId := d.parentProjectId }

/-- The ActivityItem appended by `handleCreateProject` (src/unnamed/part_004:1394-1398). -/
def createdProjectActivity (title : String) (now : Nat) : ActivityItem :=
  { id := "a" ++ natToString now, agent := "Tiger", agentEmoji := "🐯",
    action := "Created project", detail := title, timestamp := "Just now", type := "task" }

/-- `handleCreateProject` (src/unnamed/part_004:1366-1399): optimistic insert at
the front of the project list, plus one activity entry. -/
def handleCreateProject (d : ProjectData) (departments : List Department)
    (projects : List Project) (activity : List ActivityItem) (now : Nat) (nowIso : String) :
    List Project × List ActivityItem :=
  (tempProjectOf d departments projects now nowIso :: projects,
   createdProjectActivity d.title now :: activity)

/-- Create reconciliation for projects (src/unnamed/part_004:1389), spreading the
captured snapshot. -/
def reconcileCreateProject (tempProject : Project) (remoteId : String)
    (projects : List Project) : List Project :=
  projects.map (fun p => if p.id == tempProject.id then { tempProject with id := remoteId } else p)

/-- Child-project unlink step of `handleDeleteProject` (src/unnamed/part_004:1405). -/
def unlinkChildProject (projectId : String) (p : Project) : Project :=
  if p.parentProjectId == some projectId then { p with parentProjectId := none } else p

/-- Task unlink step of `handleDeleteProject` (src/unnamed/part_004:1407). -/
def unlinkTaskFromProject (projectId : String) (t : Task) : Task :=
  if t.projectId == some projectId then
    { t with projectId := none, projectName := none, projectShortCode := none }
  else t

/-- Project-list effect of `handleDeleteProject`:
`prev.filter(p => p.id !== projectId).map(p => p.parentProjectId === projectId ? { ...p, parentProjectId: undefined } : p)`. -/
def deleteProjectProjects (projectId : String) (projects : List Project) : List Project :=
  (projects.filter (fun p => p.id != projectId)).map (unlinkChildProject projectId)

/-- Task-list effect of `handleDeleteProject`:
`prev.map(t => t.projectId === projectId ? { ...t, projectId: undefined, projectName: undefined, projectShortCode: undefined } : t)`. -/
def deleteProjectTasks (projectId : String) (tasks : List Task) : List Task :=
  tasks.map (unlinkTaskFromProject projectId)

/-- The ActivityItem appended by `handleDeleteProject` (src/unnamed/part_004:1416-1420). -/
def deletedProjectActivity (title : String) (now : Nat) : ActivityItem :=
  { id := "a" ++ natToString now, agent := "Tiger", agentEmoji := "🐯",
    action := "Deleted project", detail := title, timestamp := "Just now", type := "task" }

/-- `handleDeleteProject` (src/unnamed/part_004:1402-1422): remove the project,
unlink child projects, unlink referencing tasks, append one activity entry
when the project was found. -/
def handleDeleteProject (projectId : String) (projects : List Project) (tasks : List Task)
    (activity : List ActivityItem) (now : Nat) :
    List Project × List Task × List ActivityItem :=
  (deleteProjectProjects projectId projects,
   deleteProjectTasks projectId tasks,
   match projects.find? (fun p => p.id == projectId) with
   | some project => deletedProjectActivity project.title now :: activity
   | none => activity)

/-- Input payload of `handleCreateFeatureRequest`. -/
structure FeatureRequestData where
  title : String
  description : Option String := none
  screenshotUrl : Option String := none
  sourceView : Option String := none
  priority : Option String := none
deriving DecidableEq, Repr

/-- The optimistic temporary feature request built by `handleCreateFeatureRequest`
(src/unnamed/part_004:1427-1437). -/
def tempFeatureRequestOf (d : FeatureRequestData) (now : Nat) (nowIso : String) : FeatureRequest :=
  { id := "temp-" ++ natToString now
    title := d.title
    description := d.description
    screenshotUrl := d.screenshotUrl
    sourceView := d.sourceView
    status := "new"
    priority := (jsOrNone d.priority).getD "medium"
    createdAt := nowIso
    updatedAt := nowIso }

/-- The ActivityItem appended by `handleCreateFeatureRequest`
(src/unnamed/part_004:1454-1458). -/
def capturedIdeaActivity (title : String) (now : Nat) : ActivityItem :=
  { id := "a" ++ natToString now, agent := "Tiger", agentEmoji := "🐯",
    action := "Captured idea", detail := title, timestamp := "Just now", type := "task" }

/-- `handleCreateFeatureRequest` (src/unnamed/part_004:1425-1459): optimistic
insert at the front, plus one activity entry. -/
def handleCreateFeatureRequest (d : FeatureRequestData) (featureRequests : List FeatureRequest)
    (activity : List ActivityItem) (now : Nat) (nowIso : String) :
    List FeatureRequest × List ActivityItem :=
  (tempFeatureRequestOf d now nowIso :: featureRequests,
   capturedIdeaActivity d.title now :: activity)

/-- Create reconciliation for feature requests (src/unnamed/part_004:1444-1449):
spreads the captured snapshot and additionally overwrites `createdAt` and
`updatedAt` with the remote values. -/
def reconcileCreateFeatureRequest (tempFr : FeatureRequest) (remoteId createdAt updatedAt : String)
    (featureRequests : List FeatureRequest) : List FeatureRequest :=
  featureRequests.map (fun fr =>
    if fr.id == tempFr.id then
      { tempFr with id := remoteId, createdAt := createdAt, updatedAt := updatedAt }
    else fr)

/-- Partial feature request update payload of `handleUpdateFeatureRequest`. -/
structure FeatureRequestUpdates where
  status : Option String := none
  priority : Option String := none
  title : Option String := none
  description : Option String := none
deriving DecidableEq, Repr

/-- JS spread `{ ...fr, ...updates, updatedAt: new Date().toISOString() }`. -/
def applyFeatureRequestUpdates (fr : FeatureRequest) (u : FeatureRequestUpdates)
    (nowIso : String) : FeatureRequest :=
  { fr with
    status := u.status.getD fr.status
    priority := u.priority.getD fr.priority
    title := u.title.getD fr.title
    description := match u.description with | some v => some v | none => fr.description
    updatedAt := nowIso }

/-- `handleUpdateFeatureRequest` (src/unnamed/part_004:1461-1468): merge the
partial update by id.  The source contains NO `setActivity` call here:
the activity list passes through unchanged. -/
def handleUpdateFeatureRequest (id : String) (u : FeatureRequestUpdates)
    (featureRequests : List FeatureRequest) (activity : List ActivityItem) (nowIso : String) :
    List FeatureRequest × List ActivityItem :=
  (featureRequests.map (fun fr => if fr.id == id then applyFeatureRequestUpdates fr u nowIso else fr),
   activity)

/-- `handleDeleteFeatureRequest` (src/unnamed/part_004:1470-1477): remove by id.
The source contains NO `setActivity` call here either. -/
def handleDeleteFeatureRequest (id : String) (featureRequests : List FeatureRequest)
    (activity : List ActivityItem) : List FeatureRequest × List ActivityItem :=
  (featureRequests.filter (fun fr => fr.id != id), activity)

/-- Partial agent update payload of `handleUpdateAgent`. -/
structure AgentUpdates where
  system_prompt : Option String := none
  functional_name : Option String := none
  tool_access : Option (List String) := none
  is_active : Option Bool := none
deriving DecidableEq, Repr

/-- `handleUpdateAgent` (src/unnamed/part_004:1480-1495): update role and status
locally from the payload; the source contains NO `setActivity` call. -/
def handleUpdateAgent (agentId : String) (u : AgentUpdates) (agents : List Agent)
    (activity : List ActivityItem) : List Agent × List ActivityItem :=
  (agents.map (fun a =>
    if a.id == agentId then
      let a1 := if jsStr? u.functional_name then { a with role := u.functional_name.getD "" } else a
      match u.is_active with
      | some b => { a1 with status := if b then "active" else "idle" }
      | none => a1
    else a), activity)

/-- The ActivityItem appended by `handleSpawnAgent` (src/unnamed/part_004:1102-1106
and 1118-1122; identical in both branches). -/
def spawnedAgentActivity (name role : String) (now : Nat) : ActivityItem :=
  { id := "a" ++ natToString now, agent := "The CEA", agentEmoji := "🧠",
    action := "Spawned agent",
    detail := "Deployed \"" ++ name ++ "\" (" ++ role ++ ")",
    timestamp := "Just now", type := "spawn" }

/-- Synchronous local effect of `handleSpawnAgent` (src/unnamed/part_004:1096-1126).
`remoteAgent` is the mapped agent of a successful live spawn (`mapAgent(result.data)`);
when the call is skipped, fails, or returns no data, the handler falls through
to the local fallback agent with id `agent-` + clock and status `spawning`.
Either branch appends the agent at the END of the agent list and prepends
exactly one spawn activity entry.  (The delayed `setTimeout` transition of the
fallback agent to `active` is outside the synchronous effect.) -/
def handleSpawnAgent (name emoji role description : String) (remoteAgent : Option Agent)
    (agents : List Agent) (activity : List ActivityItem) (now : Nat) :
    List Agent × List ActivityItem :=
  match remoteAgent with
  | some a => (agents ++ [a], spawnedAgentActivity name role now :: activity)
  | none =>
    (agents ++ [{ id := "agent-" ++ natToString now, name := name, role := role,
                  emoji := emoji, status := "spawning", description := description,
                  tasksCompleted := 0, currentTask := some "Initializing...",
                  uptime := "0m", metrics := [] }],
     spawnedAgentActivity name role now :: activity)

/-! ### UI-layer wrappers (TaskBoard.tsx, Strategy.tsx) -/

/-- The `newTask` form state of `TaskBoard` (src/src/components/TaskBoard.tsx:109-120).
`projectId` uses the empty string as the "no project" sentinel. -/
structure NewTaskForm where
  title : String
  description : String
  priority : TaskPriority
  assignedTo : String
  projectId : String
deriving DecidableEq, Repr

/-- `TaskBoard.handleCreateTask` (src/src/components/TaskBoard.tsx:109-120)
composed with the engine-level `handleCreateTask`:
`if (!onCreateTask || !newTask.title.trim()) return;` then
`onCreateTask({ title: newTask.title.trim(), description: newTask.description.trim() || newTask.title.trim(), ... projectId: newTask.projectId || undefined })`. -/
def taskBoardCreateTask (nt : NewTaskForm) (projects : List Project) (tasks : List Task)
    (activity : List ActivityItem) (now : Nat) (nowIso : String) :
    List Task × List ActivityItem :=
  if strTrim nt.title = "" then (tasks, activity)
  else
    handleCreateTask
      { title := strTrim nt.title
        description := jsOr (strTrim nt.description) (strTrim nt.title)
        priority := nt.priority
        assignedTo := nt.assignedTo
        projectId := jsOrNone (some nt.projectId)
        parentTaskId := none }
      projects tasks activity now nowIso

/-- `TaskBoard.handleDrop` (src/src/components/TaskBoard.tsx:174-185) composed
with `handleUpdateTaskStatus`: a status mutation is issued only when the
dragged id is non-empty, the task is found, and its status differs from the
target column. -/
def handleDrop (taskId : String) (targetStatus : TaskStatus) (tasks : List Task)
    (activity : List ActivityItem) (now : Nat) : List Task × List ActivityItem :=
  if taskId == "" then (tasks, activity)
  else
    match tasks.find? (fun t => t.id == taskId) with
    | some task =>
      if task.status != targetStatus then
        handleUpdateTaskStatus taskId targetStatus tasks activity now
      else (tasks, activity)
    | none => (tasks, activity)

/-- The clamp applied in the `Strategy` progress editor's number-input
`onChange` (src/src/components/Strategy.tsx:300):
`Math.min(100, Math.max(0, parseInt(e.target.value) || 0))`. -/
def clampProgressInput (v : Int) : Int := min 100 (max 0 v)

/-- The Strategy progress-edit path for a value the user typed: the typed value
is clamped by the input's `onChange`, then `saveProgress` forwards it to
`handleUpdateGoal` as `{ progress: progressValue }`
(src/src/components/Strategy.tsx:124-127). -/
def strategyTypedProgressSave (goalId : String) (typed : Int) (goals : List Goal)
    (activity : List ActivityItem) (now : Nat) : List Goal × List ActivityItem :=
  handleUpdateGoal goalId { progress := some (clampProgressInput typed) } goals activity now

/-! ### Execution-order traces for the async handlers

The source handlers are `async` functions; within one handler the statements
execute sequentially, with `await`ed remote calls settling before the
statements after them.  A trace lists the externally visible steps of one
handler invocation in program order: `remoteCall` covers issuing AND (because
every call in the source is `await`ed) settling of the background request. -/

/-- One externally visible step of a mutation handler. -/
inductive MutStep where
  | remoteCall
  | commitStore
  | appendActivity
  | reconcile
deriving DecidableEq, Repr

/-- Step order of `handleUpdateTaskStatus` (src/unnamed/part_004:1128-1146):
when live, the remote call is issued and awaited FIRST; the local status
commit and the activity append follow it.  The caught remote outcome
(`remoteOk`) does not alter the sequence of local steps. -/
def handleUpdateTaskStatusTrace (isLive remoteOk taskFound : Bool) : List MutStep :=
  let _ := remoteOk
  (if isLive then [MutStep.remoteCall] else []) ++ [MutStep.commitStore] ++
  (if taskFound then [MutStep.appendActivity] else [])

/-- Step order of `handleCreateTask` (src/unnamed/part_004:1182-1219): the
optimistic insert comes first; when live, the awaited remote call follows,
with the id reconciliation on success; the activity append is last. -/
def handleCreateTaskTrace (isLive remoteOk : Bool) : List MutStep :=
  [MutStep.commitStore] ++
  (if isLive then MutStep.remoteCall :: (if remoteOk then [MutStep.reconcile] else []) else []) ++
  [MutStep.appendActivity]


/-! ### Concrete entities used by witnesses and counterexamples -/

/-- A raw remote task record with `priority: 1` and `status: "failed"`. -/
def rawFailedCritical : RawTask :=
  { id := "t-remote-1", description := some "Investigate failed deploy",
    priority := some 1, status := some "failed",
    created_at := "2026-01-01T00:00:00Z" }

/-- The optimistic task created from the scenario input at clock 1000. -/
def tempTask0 : Task :=
  tempTaskOf
    { title := "Draft Q1 report", description := "Draft Q1 report",
      priority := .high, assignedTo := "tiger" }
    [] 1000 "2026-02-03T04:05:06Z"

/-- `tempTask0` after a subsequent local title edit, as it would stand in the
store when a late create-reconciliation arrives. -/
def editedTask0 : Task := { tempTask0 with title := "Draft Q1 report v2" }

/-- A concrete goal with in-range progress. -/
def goal0 : Goal :=
  { id := "g1", title := "Ship v2", progress := 10, status := "on-track",
    ownerName := "Unassigned", ownerEmoji := "🎯" }

/-- A concrete feature request. -/
def fr0 : FeatureRequest :=
  { id := "fr-1", title := "Dark mode", status := "new", priority := "medium",
    createdAt := "2026-01-01", updatedAt := "2026-01-01" }

/-- A concrete task in review status. -/
def reviewTask0 : Task :=
  { id := "t1", title := "Review the draft", description := "",
    assignedTo := "tiger", assignedBy := "cea", priority := .medium,
    status := .review, createdAt := "2026-01-01" }

/-- Project to be deleted in the cascading-unlink witness. -/
def projP : Project :=
  { id := "p1", title := "PR.GRW | Q1 Growth Push", shortCode := "GRW",
    status := "active", department := "Growth", taskCount := 2,
    completedTaskCount := 0, createdAt := "2026-01-01" }

/-- Child project of `projP`. -/
def projChild : Project :=
  { id := "p2", title := "PR.SUB | Child", shortCode := "SUB",
    status := "active", department := "Growth", taskCount := 0,
    completedTaskCount := 0, createdAt := "2026-01-02",
    parentProjectId := some "p1" }

/-- Unrelated project. -/
def projOther : Project :=
  { id := "p3", title := "PR.OPS | Ops", shortCode := "OPS",
    status := "active", department := "Ops", taskCount := 0,
    completedTaskCount := 0, createdAt := "2026-01-03" }

/-- Task linked to `projP`. -/
def taskInP : Task :=
  { id := "t-in", title := "Linked task", description := "",
    assignedTo := "tiger", assignedBy := "cea", priority := .medium,
    status := .pending, createdAt := "2026-01-01",
    projectId := some "p1", projectName := some "Q1 Growth Push",
    projectShortCode := some "GRW" }

/-- Task not linked to `projP`. -/
def taskOutP : Task :=
  { id := "t-out", title := "Other task", description := "",
    assignedTo := "tiger", assignedBy := "cea", priority := .low,
    status := .pending, createdAt := "2026-01-01" }

/-! ### Claim theorems -/

/-- C3: the task status translation is lossy exactly as specified: a remote
record with priority 1 and status "failed" maps to local priority critical
and local status review; the reverse map sends pending→todo,
in_progress→in_progress, review→in_progress, completed→done; hence the
remote→local→remote round trip for "failed" yields "in_progress". -/
theorem c3_lossy_status_translation :
    (mapTask rawFailedCritical [] []).priority = TaskPriority.critical
  ∧ (mapTask rawFailedCritical [] []).status = TaskStatus.review
  ∧ statusToRemote .pending = "todo"
  ∧ statusToRemote .in_progress = "in_progress"
  ∧ statusToRemote .review = "in_progress"
  ∧ statusToRemote .completed = "done"
  ∧ statusToRemote (mapTask rawFailedCritical [] []).status = "in_progress" := by
  decide

/-- C10: each of the four create handlers synthesizes its temporary id as
exactly the string "temp-" followed by the clock value, so two creates of any
of these entity types evaluated at the same millisecond clock value produce
identical temporary ids. -/
theorem c10_temp_id_scheme (now : Nat) (td : TaskData) (gd : GoalData) (pd : ProjectData)
    (fd : FeatureRequestData) (projects : List Project) (agents : List Agent)
    (departments : List Department) (nowIso : String) :
    (tempTaskOf td projects now nowIso).id = "temp-" ++ natToString now
  ∧ (tempGoalOf gd agents now).id = "temp-" ++ natToString now
  ∧ (tempProjectOf pd departments projects now nowIso).id = "temp-" ++ natToString now
  ∧ (tempFeatureRequestOf fd now nowIso).id = "temp-" ++ natToString now
  ∧ (tempTaskOf td projects now nowIso).id = (tempGoalOf gd agents now).id
  ∧ (tempGoalOf gd agents now).id = (tempProjectOf pd departments projects now nowIso).id
  ∧ (tempProjectOf pd departments projects now nowIso).id
      = (tempFeatureRequestOf fd now nowIso).id := by
  refine ⟨rfl, rfl, rfl, rfl, rfl, rfl, rfl⟩

/-- C8 counterexample: on the no-match title "Untitled Initiative" the two
short-code derivations disagree — `mapProject` yields the non-uppercased
"Unti" while `handleCreateProject` yields the uppercased "UNTI" — so no
single short code is both "the first four characters uppercased" and "Unti"
as the claim asserts. -/
theorem c8_shortcode_fallback_mismatch :
    mapProjectShortCode "Untitled Initiative" = "Unti"
  ∧ createProjectShortCode "Untitled Initiative" = "UNTI"
  ∧ ("Unti" : String) ≠ "UNTI" := by
  decide

/-- C8 (amended): on a title matching `PR.<CODE>` both derivations yield the
captured code; on a non-matching title `mapProject` falls back to the first
four characters of the title unchanged, while `handleCreateProject` falls
back to the first four characters uppercased. -/
theorem c8_shortcode_amended (title code : String) :
    (prCodeOf title = some code →
        mapProjectShortCode title = code ∧ createProjectShortCode title = code)
  ∧ (prCodeOf title = none →
        mapProjectShortCode title = strTake title 4
      ∧ createProjectShortCode title = strToUpper (strTake title 4)) := by
  constructor
  · intro h
    exact ⟨by simp [mapProjectShortCode, h], by simp [createProjectShortCode, h]⟩
  · intro h
    exact ⟨by simp [mapProjectShortCode, h], by simp [createProjectShortCode, h]⟩

/-- C8 witness: the amended theorem applied at the two scenario titles. -/
theorem c8_shortcode_amended_witness :
    mapProjectShortCode "PR.GRW | Q1 Growth Push" = "GRW"
  ∧ createProjectShortCode "Untitled Initiative"
      = strToUpper (strTake "Untitled Initiative" 4) :=
  ⟨((c8_shortcode_amended "PR.GRW | Q1 Growth Push" "GRW").1 (by decide)).1,
   ((c8_shortcode_amended "Untitled Initiative" "").2 (by decide)).2⟩

/-- C2 counterexample: in a live session, `handleUpdateTaskStatus` issues and
awaits its remote call FIRST; the optimistic commit and the activity append
come after it, so the local state commit is blocked on the remote call
settling, contrary to the claim. -/
theorem c2_status_update_remote_first :
    handleUpdateTaskStatusTrace true true true
      = [MutStep.remoteCall, MutStep.commitStore, MutStep.appendActivity]
  ∧ (handleUpdateTaskStatusTrace true true true).findIdx (fun s => s == MutStep.remoteCall)
      < (handleUpdateTaskStatusTrace true true true).findIdx (fun s => s == MutStep.commitStore) := by
  decide

/-- C2 (amended): the create handler commits its optimistic insert before
issuing the remote call (and appends its activity entry last), but the task
status update, when live, issues and awaits the remote call before the local
commit; in every case the local commit step is present — and the trace is
identical whatever the caught remote outcome — so the new status is committed
locally regardless of the remote call's success or failure, though after it
settles. -/
theorem c2_commit_order_amended (isLive remoteOk remoteOk2 taskFound : Bool) :
    MutStep.commitStore ∈ handleUpdateTaskStatusTrace isLive remoteOk taskFound
  ∧ handleUpdateTaskStatusTrace isLive remoteOk taskFound
      = handleUpdateTaskStatusTrace isLive remoteOk2 taskFound
  ∧ (handleCreateTaskTrace isLive remoteOk).head? = some MutStep.commitStore
  ∧ (handleCreateTaskTrace isLive remoteOk).getLast? = some MutStep.appendActivity
  ∧ (handleUpdateTaskStatusTrace true remoteOk taskFound).findIdx (fun s => s == MutStep.remoteCall)
      < (handleUpdateTaskStatusTrace true remoteOk taskFound).findIdx
          (fun s => s == MutStep.commitStore) := by
  cases isLive <;> cases remoteOk <;> cases remoteOk2 <;> cases taskFound <;> decide


/-- C1 counterexample: with a local edit (a title change) between the create
and the reconciliation, reconciliation does NOT merely rename the id of the
entity as it stands in the store at reconciliation time: the stored edited
title is reverted to the create-time snapshot title, so a field other than
the id is changed. -/
theorem c1_reconcile_not_id_only_rename :
    reconcileCreateTask tempTask0 "real-42" [editedTask0]
      = [{ tempTask0 with id := "real-42" }]
  ∧ reconcileCreateTask tempTask0 "real-42" [editedTask0]
      ≠ [{ editedTask0 with id := "real-42" }]
  ∧ editedTask0.title ≠ tempTask0.title := by
  decide

/-- C1 (amended): the create-reconciliation step replaces the store entry that
carries the temporary id wholesale with the optimistic snapshot captured at
create time, with the id set to the remote-assigned id (for feature requests
also the remote timestamps); it is an id-only rename exactly when the stored
entry is still identical to the snapshot, and any local edits made between
the create and the reconciliation are discarded.  Entries with other ids are
left untouched. -/
theorem c1_reconcile_snapshot_replace :
    (∀ (t0 : Task) (rid : String) (tasks : List Task) (t : Task), t ∈ tasks →
        (t.id ≠ t0.id → t ∈ reconcileCreateTask t0 rid tasks)
      ∧ (t.id = t0.id → { t0 with id := rid } ∈ reconcileCreateTask t0 rid tasks)
      ∧ (t = t0 → { t with id := rid } ∈ reconcileCreateTask t0 rid tasks))
  ∧ (∀ (g0 : Goal) (rid : String) (goals : List Goal) (g : Goal), g ∈ goals →
        (g.id ≠ g0.id → g ∈ reconcileCreateGoal g0 rid goals)
      ∧ (g.id = g0.id → { g0 with id := rid } ∈ reconcileCreateGoal g0 rid goals))
  ∧ (∀ (p0 : Project) (rid : String) (projects : List Project) (p : Project), p ∈ projects →
        (p.id ≠ p0.id → p ∈ reconcileCreateProject p0 rid projects)
      ∧ (p.id = p0.id → { p0 with id := rid } ∈ reconcileCreateProject p0 rid projects))
  ∧ (∀ (f0 : FeatureRequest) (rid ca ua : String) (frs : List FeatureRequest)
        (f : FeatureRequest), f ∈ frs →
        (f.id ≠ f0.id → f ∈ reconcileCreateFeatureRequest f0 rid ca ua frs)
      ∧ (f.id = f0.id →
          { f0 with id := rid, createdAt := ca, updatedAt := ua }
            ∈ reconcileCreateFeatureRequest f0 rid ca ua frs)) := by
  refine ⟨?_, ?_, ?_, ?_⟩
  · intro t0 rid tasks t ht
    have hmem := List.mem_map_of_mem
      (fun x => if x.id == t0.id then { t0 with id := rid } else x) ht
    refine ⟨fun h => ?_, fun h => ?_, fun h => ?_⟩
    · simpa [reconcileCreateTask, beq_eq_false_iff_ne.mpr h] using hmem
    · simpa [reconcileCreateTask, beq_iff_eq.mpr h] using hmem
    · subst h
      simpa [reconcileCreateTask] using hmem
  · intro g0 rid goals g hg
    have hmem := List.mem_map_of_mem
      (fun x => if x.id == g0.id then { g0 with id := rid } else x) hg
    refine ⟨fun h => ?_, fun h => ?_⟩
    · simpa [reconcileCreateGoal, beq_eq_false_iff_ne.mpr h] using hmem
    · simpa [reconcileCreateGoal, beq_iff_eq.mpr h] using hmem
  · intro p0 rid projects p hp
    have hmem := List.mem_map_of_mem
      (fun x => if x.id == p0.id then { p0 with id := rid } else x) hp
    refine ⟨fun h => ?_, fun h => ?_⟩
    · simpa [reconcileCreateProject, beq_eq_false_iff_ne.mpr h] using hmem
    · simpa [reconcileCreateProject, beq_iff_eq.mpr h] using hmem
  · intro f0 rid ca ua frs f hf
    have hmem := List.mem_map_of_mem
      (fun x => if x.id == f0.id then { f0 with id := rid, createdAt := ca, updatedAt := ua }
                else x) hf
    refine ⟨fun h => ?_, fun h => ?_⟩
    · simpa [reconcileCreateFeatureRequest, beq_eq_false_iff_ne.mpr h] using hmem
    · simpa [reconcileCreateFeatureRequest, beq_iff_eq.mpr h] using hmem

/-- C1 witness: the amended reconciliation theorem applied to the concrete
edited store: the snapshot with the remote id lands in the store. -/
theorem c1_reconcile_snapshot_replace_witness :
    editedTask0 ∈ [editedTask0]
  ∧ editedTask0.id = tempTask0.id
  ∧ { tempTask0 with id := "real-42" } ∈ reconcileCreateTask tempTask0 "real-42" [editedTask0] :=
  ⟨by simp, rfl,
   (c1_reconcile_snapshot_replace.1 tempTask0 "real-42" [editedTask0] editedTask0
      (by simp)).2.1 rfl⟩

/-- C4: a task-create request whose title is empty or whitespace-only is
rejected by the precondition check as a complete no-op: the task collection
and the activity collection are returned unchanged. -/
theorem c4_blank_title_create_noop (nt : NewTaskForm) (projects : List Project)
    (tasks : List Task) (activity : List ActivityItem) (now : Nat) (nowIso : String)
    (h : strTrim nt.title = "") :
    taskBoardCreateTask nt projects tasks activity now nowIso = (tasks, activity) := by
  simp [taskBoardCreateTask, h]

/-- C4 witness: the whitespace-only title "   " is rejected as a no-op. -/
theorem c4_blank_title_create_noop_witness :
    strTrim "   " = ""
  ∧ taskBoardCreateTask
      { title := "   ", description := "", priority := .medium,
        assignedTo := "tiger", projectId := "" } [] [] [] 1 "2026-01-01"
      = ([], []) :=
  ⟨by decide,
   c4_blank_title_create_noop
     { title := "   ", description := "", priority := .medium,
       assignedTo := "tiger", projectId := "" } [] [] [] 1 "2026-01-01" (by decide)⟩

/-- C9: dropping a task onto the column of its own current status is a
functional no-op: no status mutation is applied, the task collection is
unchanged, and no ActivityItem is appended. -/
theorem c9_drop_same_status_noop (taskId : String) (target : TaskStatus)
    (tasks : List Task) (activity : List ActivityItem) (now : Nat) (task : Task)
    (hfind : tasks.find? (fun t => t.id == taskId) = some task)
    (hstatus : task.status = target) :
    handleDrop taskId target tasks activity now = (tasks, activity) := by
  by_cases he : (taskId == "") = true
  · simp [handleDrop, he]
  · simp [handleDrop, he, hfind, hstatus]

/-- C9 witness: dropping the review-status task onto the review column leaves
the store and the activity log unchanged. -/
theorem c9_drop_same_status_noop_witness :
    [reviewTask0].find? (fun t => t.id == "t1") = some reviewTask0
  ∧ reviewTask0.status = .review
  ∧ handleDrop "t1" .review [reviewTask0] [] 3 = ([reviewTask0], []) :=
  ⟨by decide, rfl,
   c9_drop_same_status_noop "t1" .review [reviewTask0] [] 3 reviewTask0 (by decide) rfl⟩

/-- C6 counterexample: the store-level goal update applies the supplied
progress without clamping — updating `goal0` with progress 150 stores 150,
which exceeds 100 — so clamping does NOT hold for every path through which a
progress update reaches the goal entity. -/
theorem c6_unclamped_store_update :
    (handleUpdateGoal "g1" { progress := some 150 } [goal0] [] 7).1
      = [{ goal0 with progress := 150 }]
  ∧ ¬ ((150 : Int) ≤ 100) := by
  decide

/-- C6 (amended): values typed into the Strategy progress editor are clamped
to [0,100] by the number input's onChange (150 ↦ 100, -5 ↦ 0) before being
saved, so the editor's typed-save path always stores a clamped value; the
store-level `handleUpdateGoal` itself, however, applies whatever progress
value it is given, unclamped. -/
theorem c6_progress_clamping_amended (typed : Int) (g : Goal) (u : GoalUpdates)
    (goals : List Goal) (activity : List ActivityItem) (now : Nat) (goalId : String) :
    clampProgressInput 150 = 100
  ∧ clampProgressInput (-5) = 0
  ∧ 0 ≤ clampProgressInput typed
  ∧ clampProgressInput typed ≤ 100
  ∧ (∀ p : Int, (applyGoalUpdates g { u with progress := some p }).progress = p)
  ∧ (applyGoalUpdates g { progress := some (clampProgressInput typed) }).progress
      = clampProgressInput typed
  ∧ (g ∈ goals → g.id = goalId →
      applyGoalUpdates g { progress := some (clampProgressInput typed) }
        ∈ (strategyTypedProgressSave goalId typed goals activity now).1) := by
  refine ⟨by decide, by decide, ?_, ?_, fun p => rfl, rfl, ?_⟩
  · exact le_min_iff.mpr ⟨by norm_num, le_max_left 0 typed⟩
  · exact min_le_left 100 _
  · intro hg hid
    have hmem := List.mem_map_of_mem
      (fun g2 => if g2.id == goalId then
          applyGoalUpdates g2 { progress := some (clampProgressInput typed) } else g2) hg
    simpa [strategyTypedProgressSave, handleUpdateGoal, beq_iff_eq.mpr hid] using hmem

/-- C6 witness: the amended theorem at the scenario inputs — typing 150 into
the editor for `goal0` stores progress 100. -/
theorem c6_progress_clamping_amended_witness :
    goal0 ∈ [goal0]
  ∧ goal0.id = "g1"
  ∧ applyGoalUpdates goal0 { progress := some (clampProgressInput 150) }
      ∈ (strategyTypedProgressSave "g1" 150 [goal0] [] 7).1
  ∧ (applyGoalUpdates goal0 { progress := some (clampProgressInput 150) }).progress = 100 :=
  ⟨by simp, rfl,
   (c6_progress_clamping_amended 150 goal0 {} [goal0] [] 7 "g1").2.2.2.2.2.2 (by simp) rfl,
   by decide⟩


/-- The unlink step of project deletion never changes a project's id. -/
theorem unlinkChildProject_id (pid : String) (p : Project) :
    (unlinkChildProject pid p).id = p.id := by
  unfold unlinkChildProject
  split <;> rfl

/-- C5: after deleting project P, every task that referenced P has projectId,
projectName and projectShortCode all cleared; every other task is untouched;
no task is deleted; P is absent from the project collection; every child
project of P is unlinked (parentProjectId cleared) but still present; every
other project is untouched; and no project other than P is deleted. -/
theorem c5_delete_project_cascading_unlink (pid : String) (projects : List Project)
    (tasks : List Task) (activity : List ActivityItem) (now : Nat) :
    (handleDeleteProject pid projects tasks activity now).1 = deleteProjectProjects pid projects
  ∧ (handleDeleteProject pid projects tasks activity now).2.1 = deleteProjectTasks pid tasks
  ∧ (∀ t, t ∈ tasks → t.projectId = some pid →
      { t with projectId := none, projectName := none, projectShortCode := none }
        ∈ deleteProjectTasks pid tasks)
  ∧ (∀ t, t ∈ tasks → t.projectId ≠ some pid → t ∈ deleteProjectTasks pid tasks)
  ∧ (deleteProjectTasks pid tasks).length = tasks.length
  ∧ (∀ p, p ∈ deleteProjectProjects pid projects → p.id ≠ pid)
  ∧ (∀ p, p ∈ projects → p.id ≠ pid → p.parentProjectId = some pid →
      { p with parentProjectId := none } ∈ deleteProjectProjects pid projects)
  ∧ (∀ p, p ∈ projects → p.id ≠ pid → p.parentProjectId ≠ some pid →
      p ∈ deleteProjectProjects pid projects)
  ∧ (deleteProjectProjects pid projects).length
      = (projects.filter (fun p => p.id != pid)).length := by
  refine ⟨rfl, rfl, ?_, ?_, ?_, ?_, ?_, ?_, ?_⟩
  · intro t ht h
    have hmem := List.mem_map_of_mem (unlinkTaskFromProject pid) ht
    simpa [deleteProjectTasks, unlinkTaskFromProject, beq_iff_eq.mpr h] using hmem
  · intro t ht h
    have hmem := List.mem_map_of_mem (unlinkTaskFromProject pid) ht
    simpa [deleteProjectTasks, unlinkTaskFromProject, beq_eq_false_iff_ne.mpr h] using hmem
  · simp [deleteProjectTasks]
  · intro p hp
    unfold deleteProjectProjects at hp
    rcases List.mem_map.mp hp with ⟨q, hqf, rfl⟩
    rcases List.mem_filter.mp hqf with ⟨_, hqid⟩
    rw [unlinkChildProject_id]
    exact bne_iff_ne.mp hqid
  · intro p hp hid hpar
    have hqf : p ∈ projects.filter (fun q => q.id != pid) :=
      List.mem_filter.mpr ⟨hp, bne_iff_ne.mpr hid⟩
    have hmem := List.mem_map_of_mem (unlinkChildProject pid) hqf
    simpa [deleteProjectProjects, unlinkChildProject, beq_iff_eq.mpr hpar] using hmem
  · intro p hp hid hpar
    have hqf : p ∈ projects.filter (fun q => q.id != pid) :=
      List.mem_filter.mpr ⟨hp, bne_iff_ne.mpr hid⟩
    have hmem := List.mem_map_of_mem (unlinkChildProject pid) hqf
    simpa [deleteProjectProjects, unlinkChildProject, beq_eq_false_iff_ne.mpr hpar] using hmem
  · simp [deleteProjectProjects]

/-- C5 witness: deleting "p1" in a concrete store unlinks the linked task and
the child project, keeps the unrelated project, and removes exactly one
project. -/
theorem c5_delete_project_cascading_unlink_witness :
    taskInP ∈ [taskInP, taskOutP]
  ∧ taskInP.projectId = some "p1"
  ∧ { taskInP with projectId := none, projectName := none, projectShortCode := none }
      ∈ deleteProjectTasks "p1" [taskInP, taskOutP]
  ∧ { projChild with parentProjectId := none }
      ∈ deleteProjectProjects "p1" [projP, projChild, projOther]
  ∧ projOther ∈ deleteProjectProjects "p1" [projP, projChild, projOther]
  ∧ (deleteProjectProjects "p1" [projP, projChild, projOther]).length = 2 :=
  ⟨by simp, rfl,
   (c5_delete_project_cascading_unlink "p1" [projP, projChild, projOther]
      [taskInP, taskOutP] [] 0).2.2.1 taskInP (by simp) rfl,
   (c5_delete_project_cascading_unlink "p1" [projP, projChild, projOther]
      [taskInP, taskOutP] [] 0).2.2.2.2.2.2.1 projChild (by simp) (by decide) rfl,
   (c5_delete_project_cascading_unlink "p1" [projP, projChild, projOther]
      [taskInP, taskOutP] [] 0).2.2.2.2.2.2.2.1 projOther (by simp) (by decide) (by decide),
   by decide⟩

/-- C7 counterexample: a feature-request status update (and likewise a
feature-request delete) appends NO ActivityItem — the activity collection
stays empty — contradicting "every user-initiated write mutation synthesizes
exactly one ActivityItem". -/
theorem c7_fr_update_appends_no_activity :
    (handleUpdateFeatureRequest "fr-1" { status := some "done" } [fr0] [] "2026-01-02").2 = []
  ∧ (handleDeleteFeatureRequest "fr-1" [fr0] []).2 = [] :=
  ⟨rfl, rfl⟩

/-- C7 (amended): every task, goal and project mutation, every
feature-request creation, and every agent spawn synthesizes exactly one
ActivityItem, prepended to the front of the activity collection and
timestamped "Just now", with the detail of a multi-field update containing
the comma-joined changed-field list (updates and deletes append only when
the target entity is found in the pre-mutation snapshot); feature-request
updates, feature-request deletes and agent profile updates append no
ActivityItem. -/
theorem c7_activity_synthesis_amended :
    (∀ taskId u tasks activity now task,
        tasks.find? (fun t => t.id == taskId) = some task →
        (handleUpdateTask taskId u tasks activity now).2
          = taskUpdateActivity task.title u now :: activity)
  ∧ (∀ title u now, (taskUpdateActivity title u now).timestamp = "Just now"
      ∧ (taskUpdateActivity title u now).detail
          = title ++ ": " ++ String.intercalate ", " (taskUpdateChanges u))
  ∧ (∀ taskId status tasks activity now task,
        tasks.find? (fun t => t.id == taskId) = some task →
        (handleUpdateTaskStatus taskId status tasks activity now).2
          = statusChangeActivity status task.title now :: activity)
  ∧ (∀ taskId tasks activity now task,
        tasks.find? (fun t => t.id == taskId) = some task →
        (handleDeleteTask taskId tasks activity now).2
          = deletedTaskActivity task.title now :: activity)
  ∧ (∀ d projects tasks activity now nowIso,
        (handleCreateTask d projects tasks activity now nowIso).2
          = createdTaskActivity d.title now :: activity)
  ∧ (∀ projectId u projects activity now project,
        projects.find? (fun p => p.id == projectId) = some project →
        (handleUpdateProject projectId u projects activity now).2
          = projectUpdateActivity project.shortCode u now :: activity)
  ∧ (∀ d departments projects activity now nowIso,
        (handleCreateProject d departments projects activity now nowIso).2
          = createdProjectActivity d.title now :: activity)
  ∧ (∀ projectId projects tasks activity now project,
        projects.find? (fun p => p.id == projectId) = some project →
        (handleDeleteProject projectId projects tasks activity now).2.2
          = deletedProjectActivity project.title now :: activity)
  ∧ (∀ goalId u goals activity now goal,
        goals.find? (fun g => g.id == goalId) = some goal →
        (handleUpdateGoal goalId u goals activity now).2
          = goalUpdateActivity goal.title u now :: activity)
  ∧ (∀ d agents goals activity now,
        (handleCreateGoal d agents goals activity now).2
          = createdGoalActivity d.title now :: activity)
  ∧ (∀ goalId goals activity now goal,
        goals.find? (fun g => g.id == goalId) = some goal →
        (handleDeleteGoal goalId goals activity now).2
          = deletedGoalActivity goal.title now :: activity)
  ∧ (∀ d frs activity now nowIso,
        (handleCreateFeatureRequest d frs activity now nowIso).2
          = capturedIdeaActivity d.title now :: activity)
  ∧ (∀ id u frs activity nowIso,
        (handleUpdateFeatureRequest id u frs activity nowIso).2 = activity)
  ∧ (∀ id frs activity, (handleDeleteFeatureRequest id frs activity).2 = activity)
  ∧ (∀ agentId u agents activity, (handleUpdateAgent agentId u agents activity).2 = activity)
  ∧ (∀ name emoji role description remoteAgent agents activity now,
        (handleSpawnAgent name emoji role description remoteAgent agents activity now).2
          = spawnedAgentActivity name role now :: activity)
  ∧ (∀ name role now, (spawnedAgentActivity name role now).timestamp = "Just now")
  ∧ (∀ title now, (createdTaskActivity title now).timestamp = "Just now")
  ∧ (∀ status title now, (statusChangeActivity status title now).timestamp = "Just now")
  ∧ (∀ title now, (deletedTaskActivity title now).timestamp = "Just now")
  ∧ (∀ sc u now, (projectUpdateActivity sc u now).timestamp = "Just now"
      ∧ (projectUpdateActivity sc u now).detail
          = sc ++ ": " ++ String.intercalate ", " (projectUpdateChanges u))
  ∧ (∀ title now, (createdProjectActivity title now).timestamp = "Just now")
  ∧ (∀ title now, (deletedProjectActivity title now).timestamp = "Just now")
  ∧ (∀ title u now, (goalUpdateActivity title u now).timestamp = "Just now")
  ∧ (∀ title now, (createdGoalActivity title now).timestamp = "Just now")
  ∧ (∀ title now, (deletedGoalActivity title now).timestamp = "Just now")
  ∧ (∀ title now, (capturedIdeaActivity title now).timestamp = "Just now") := by
  refine ⟨?upT, fun title u now => ⟨rfl, rfl⟩, ?upS, ?delT,
          fun d p t a n i => rfl, ?upP, fun d dep p a n i => rfl, ?delP, ?upG,
          fun d ag g a n => rfl, ?delG, fun d f a n i => rfl,
          fun i u f a n => rfl, fun i f a => rfl, fun ag u a act => rfl,
          ?spawn, fun n r m => rfl,
          fun t n => rfl, fun s t n => rfl, fun t n => rfl,
          fun sc u n => ⟨rfl, rfl⟩, fun t n => rfl, fun t n => rfl,
          fun t u n => rfl, fun t n => rfl, fun t n => rfl, fun t n => rfl⟩
  case upT =>
    intro taskId u tasks activity now task hfind
    simp [handleUpdateTask, hfind]
  case upS =>
    intro taskId status tasks activity now task hfind
    simp [handleUpdateTaskStatus, hfind]
  case delT =>
    intro taskId tasks activity now task hfind
    simp [handleDeleteTask, hfind]
  case upP =>
    intro projectId u projects activity now project hfind
    simp [handleUpdateProject, hfind]
  case delP =>
    intro projectId projects tasks activity now project hfind
    simp [handleDeleteProject, hfind]
  case upG =>
    intro goalId u goals activity now goal hfind
    simp [handleUpdateGoal, hfind]
  case delG =>
    intro goalId goals activity now goal hfind
    simp [handleDeleteGoal, hfind]
  case spawn =>
    intro name emoji role description remoteAgent agents activity now
    cases remoteAgent <;> rfl

/-- C7 witness: a concrete single-field task update appends exactly one
activity entry, at the front, with the expected comma-joined detail; the
clear-project update (projectId present with `undefined`) contributes no
changed-field entry, matching the program's `!== undefined` check. -/
theorem c7_activity_synthesis_amended_witness :
    [reviewTask0].find? (fun t => t.id == "t1") = some reviewTask0
  ∧ (handleUpdateTask "t1" { priority := some .high } [reviewTask0] [] 9).2
      = [taskUpdateActivity reviewTask0.title { priority := some .high } 9]
  ∧ (taskUpdateActivity reviewTask0.title { priority := some .high } 9).detail
      = "Review the draft: priority → high"
  ∧ (taskUpdateActivity reviewTask0.title { projectId := some none } 9).detail
      = "Review the draft: "
  ∧ (handleSpawnAgent "Scout" "🔭" "@Scout" "Explores" none [] [] 11).2
      = [spawnedAgentActivity "Scout" "@Scout" 11] :=
  ⟨by decide,
   c7_activity_synthesis_amended.1 "t1" { priority := some .high } [reviewTask0] [] 9
     reviewTask0 (by decide),
   by decide,
   by decide,
   by exact (c7_activity_synthesis_amended.2.2.2.2.2.2.2.2.2.2.2.2.2.2.2.1
     "Scout" "🔭" "@Scout" "Explores" none [] [] 11)⟩

end HB
